import Mathlib

/-
Shallow embedding of `dabevlohn/urlshort` (`src/main.rs`), a CQRS/ES-style
URL-shortening service, together with proofs of its specification claims.

Modelling conventions:
* `Slug` and `Url` are newtype wrappers around `String` in the source; they
  are embedded as plain `String`s.
* `HashMap<String, String>` (the slug registry) and `BTreeMap<String, u64>`
  (the click counters) are embedded as association lists
  `List (String × _)` with the lookup/insert/entry semantics of the source;
  only lookup and key-set facts are claimed, never iteration order.
* `u64` values are embedded as `Nat` reduced modulo `2 ^ 64` wherever the
  source performs arithmetic on them (`*inc += 1`).
* The `rand::thread_rng` 7-character slug sample taken when no slug is
  supplied is an external capability (spec §6); each call's sampled string is
  passed in explicitly as the `gen` argument, so runs are deterministic.
* `url::Url::parse` is an external capability (spec §6); it is embedded as an
  injected predicate `validate : String → Bool` (`true` ↔ `parse` succeeds),
  and theorems quantify over it.
* Fallible Rust code returning `Result<T, ShortenerError>` is embedded as
  `Except ShortenerError T`; a Rust panic (`todo!()`) is embedded as `none`
  in an outer `Option`.
-/

namespace Urlshort

/-- The wrap-around modulus of the source's `u64` click counters. -/
def U64 : Nat := 2 ^ 64

/-- All possible errors of the `UrlShortenerService` (source enum
`ShortenerError`). -/
inductive ShortenerError where
  | InvalidUrl : ShortenerError
  | SlugAlreadyInUse : ShortenerError
  | SlugNotFound : ShortenerError
  deriving DecidableEq, Repr

/-- Shortened URL representation (source struct `ShortLink`); the `Slug` and
`Url` newtype fields are embedded as `String`. -/
structure ShortLink where
  slug : String
  url : String
  deriving DecidableEq, Repr

/-- Statistics of a `ShortLink` (source struct `Stats`); `redirects : u64` is
embedded as `Nat`. -/
structure Stats where
  link : ShortLink
  redirects : Nat
  deriving DecidableEq, Repr

deriving instance DecidableEq for Except

/-- Lookup in an association list, the embedding of `HashMap::get` /
`BTreeMap::get`. -/
def lookupA {α : Type} : List (String × α) → String → Option α
  | [], _ => none
  | (a, b) :: tl, k => if a = k then some b else lookupA tl k

/-- Insert into an association list, the embedding of `HashMap::insert`
(replaces the value when the key is present, appends otherwise; in the source
it is only ever called on absent keys). -/
def insertA {α : Type} : List (String × α) → String → α → List (String × α)
  | [], k, v => [(k, v)]
  | (a, b) :: tl, k, v => if a = k then (k, v) :: tl else (a, b) :: insertA tl k v

/-- The embedding of `self.stats.entry(slug).or_insert(0); *inc += 1`:
increment the counter at `k`, inserting it at `1` when absent; the `u64`
addition wraps modulo `2 ^ 64`. -/
def bump : List (String × Nat) → String → List (String × Nat)
  | [], k => [(k, 1)]
  | (a, n) :: tl, k => if a = k then (a, (n + 1) % U64) :: tl else (a, n) :: bump tl k

/-- CQRS and Event Sourcing-based service state (source struct
`UrlShortenerService` with fields `slugs : HashMap<String, String>` and
`stats : BTreeMap<String, u64>`). -/
structure UrlShortenerService where
  slugs : List (String × String)
  stats : List (String × Nat)
  deriving DecidableEq, Repr

/-- `UrlShortenerService::new`: both maps start empty. -/
def UrlShortenerService.new : UrlShortenerService :=
  { slugs := [], stats := [] }

/-- Slug resolution at the head of `handle_create_short_link`: a supplied slug
is used verbatim, otherwise the externally sampled 7-character string `gen`
stands in for the `rand::thread_rng` sample. -/
def resolveSlug (slug : Option String) (gen : String) : String :=
  match slug with
  | some s => s
  | none => gen

/-- `CommandHandler::handle_create_short_link`: resolve the slug, parse the
URL (embedded as the injected `validate` capability), then check the slug
registry; on success insert the mapping and return the `ShortLink`. Returns
the `Result` together with the post-state (`&mut self` in the source). -/
def handle_create_short_link (validate : String → Bool) (gen : String)
    (self : UrlShortenerService) (url : String) (slug : Option String) :
    Except ShortenerError ShortLink × UrlShortenerService :=
  let sl := resolveSlug slug gen
  if validate url then
    match lookupA self.slugs sl with
    | some _ => (Except.error ShortenerError.SlugAlreadyInUse, self)
    | none =>
      (Except.ok { slug := sl, url := url },
       { self with slugs := insertA self.slugs sl url })
  else
    (Except.error ShortenerError.InvalidUrl, self)

/-- `CommandHandler::handle_redirect`: look the slug up in the registry; when
present, bump its click counter and return the `ShortLink`; otherwise fail
with `SlugNotFound`. Returns the `Result` together with the post-state. -/
def handle_redirect (self : UrlShortenerService) (slug : String) :
    Except ShortenerError ShortLink × UrlShortenerService :=
  match lookupA self.slugs slug with
  | some u =>
    (Except.ok { slug := slug, url := u }, { self with stats := bump self.stats slug })
  | none => (Except.error ShortenerError.SlugNotFound, self)

/-- `QueryHandler::get_stats`: the source body is `todo!()`, which panics
unconditionally on every input; the panic is embedded as `none` (a normal
return would be `some`). The receiver is `&self`, so no state can change. -/
def get_stats (self : UrlShortenerService) (slug : String) :
    Option (Except ShortenerError Stats) :=
  none

/-- One client call against the service. For `create`, `gen` is the
7-character string the external random generator would sample for this call
(used only when `slug = none`). -/
inductive Op where
  | create (url : String) (slug : Option String) (gen : String) : Op
  | redirect (slug : String) : Op
  | getStats (slug : String) : Op

/-- State transition of one call. `get_stats` takes `&self` (and in fact
panics), so it never changes the state. -/
def step (validate : String → Bool) (s : UrlShortenerService) (op : Op) :
    UrlShortenerService :=
  match op with
  | Op.create url slug gen => (handle_create_short_link validate gen s url slug).2
  | Op.redirect slug => (handle_redirect s slug).2
  | Op.getStats _ => s

/-- Run a sequence of calls from a state. -/
def run (validate : String → Bool) (ops : List Op) (s : UrlShortenerService) :
    UrlShortenerService :=
  ops.foldl (step validate) s

/-- The slugs returned by the successful `handle_create_short_link` calls of a
run, in call order. -/
def createdSlugs (validate : String → Bool) :
    List Op → UrlShortenerService → List String
  | [], _ => []
  | Op.create url slug gen :: ops, s =>
    match handle_create_short_link validate gen s url slug with
    | (Except.ok link, s1) => link.slug :: createdSlugs validate ops s1
    | (Except.error _, s1) => createdSlugs validate ops s1
  | op :: ops, s => createdSlugs validate ops (step validate s op)

/-- Modelled from the spec: the source keeps no event log, only the two
projections, so the domain events of spec §3 are reconstructed here.
`LinkCreated { slug, url }` is emitted once per successful creation,
`RedirectOccurred { slug }` once per successful redirect resolution. -/
inductive Event where
  | linkCreated (slug url : String) : Event
  | redirectOccurred (slug : String) : Event
  deriving DecidableEq, Repr

/-- Modelled from the spec: the projection fold of §4.2/§4.3.
`LinkCreated` inserts the mapping only if the slug is absent (defensive);
`RedirectOccurred` increments the click counter, inserting it at 1 if absent.
Each event is a no-op on the projection it does not concern. -/
def applyEvent (p : UrlShortenerService) (e : Event) : UrlShortenerService :=
  match e with
  | Event.linkCreated slug url =>
    match lookupA p.slugs slug with
    | some _ => p
    | none => { p with slugs := insertA p.slugs slug url }
  | Event.redirectOccurred slug => { p with stats := bump p.stats slug }

/-- Modelled from the spec: the Replay Engine of §4.6, `rebuild(log)`: fold
every event of the log, in order, over empty projections. -/
def rebuild (log : List Event) : UrlShortenerService :=
  log.foldl applyEvent UrlShortenerService.new

/-- Modelled from the spec: a run that also records the event log (§4.4): a
successful create appends `LinkCreated`, a successful redirect appends
`RedirectOccurred`, failed calls and queries append nothing. Returns the final
state and the log in append order. -/
def runLog (validate : String → Bool) :
    List Op → UrlShortenerService → UrlShortenerService × List Event
  | [], s => (s, [])
  | Op.create url slug gen :: ops, s =>
    match handle_create_short_link validate gen s url slug with
    | (Except.ok link, s1) =>
      let r := runLog validate ops s1
      (r.1, Event.linkCreated link.slug link.url :: r.2)
    | (Except.error _, s1) => runLog validate ops s1
  | Op.redirect slug :: ops, s =>
    match handle_redirect s slug with
    | (Except.ok _, s1) =>
      let r := runLog validate ops s1
      (r.1, Event.redirectOccurred slug :: r.2)
    | (Except.error _, s1) => runLog validate ops s1
  | Op.getStats _ :: ops, s => runLog validate ops s

/-- Click-counter value of a slug: the stored `u64`, `0` when absent. -/
def countOf (s : UrlShortenerService) (k : String) : Nat :=
  (lookupA s.stats k).getD 0

/-- State after `n` consecutive `handle_redirect slug` calls. -/
def redirectN (s : UrlShortenerService) (slug : String) : Nat → UrlShortenerService
  | 0 => s
  | n + 1 => (handle_redirect (redirectN s slug n) slug).2

/-- Whether an embedded `Result` is `Ok`. -/
def isOk : Except ShortenerError ShortLink → Bool
  | Except.ok _ => true
  | Except.error _ => false

/-- Whether all of `n` consecutive `handle_redirect slug` calls from `s`
return `Ok`. -/
def redirectAllOk (s : UrlShortenerService) (slug : String) : Nat → Bool
  | 0 => true
  | n + 1 => redirectAllOk s slug n && isOk (handle_redirect (redirectN s slug n) slug).1

/-- Modelled from the spec: the external URL validator capability of §6,
pinned at the concrete strings this development evaluates it on. The `url`
crate's `Url::parse` accepts these absolute URLs and rejects strings such as
`"not a url"` (a relative reference with no base). -/
def exampleValidator (s : String) : Bool :=
  s = "https://example.com/" || s = "https://www.example.com/" || s = "https://x.test/"

/-- A concrete service state with slug `"t"` registered, used as input to
counterexamples and witnesses. -/
def demoState : UrlShortenerService :=
  { slugs := [("t", "https://example.com/")], stats := [] }

/-- A concrete service state with slug `"a"` registered and no clicks yet. -/
def demoRedirectState : UrlShortenerService :=
  { slugs := [("a", "https://x.test/")], stats := [] }

/-- A concrete call sequence: create slug `"abc"`, then redirect it once. -/
def demoOps : List Op :=
  [Op.create "https://example.com/" (some "abc") "g", Op.redirect "abc"]

/-- The state after one successful creation of `"my-slug"` on a fresh
instance. -/
def c5FirstState : UrlShortenerService :=
  (handle_create_short_link exampleValidator "g" UrlShortenerService.new
      "https://example.com/" (some "my-slug")).2

example : lookupA demoState.slugs "t" = some "https://example.com/" := by decide
example :
    (handle_create_short_link exampleValidator "g" demoState "not a url" (some "t")).1 =
      Except.error ShortenerError.InvalidUrl := by decide
example :
    (handle_redirect demoRedirectState "a").1 =
      Except.ok { slug := "a", url := "https://x.test/" } := by decide
example : countOf (redirectN demoRedirectState "a" 3) "a" = 3 := by decide

theorem lookupA_insertA_self {α : Type} (l : List (String × α)) (k : String) (v : α) :
    lookupA (insertA l k v) k = some v := by
  induction l with
  | nil => simp [insertA, lookupA]
  | cons hd tl ih =>
    obtain ⟨a, b⟩ := hd
    by_cases h : a = k <;> simp [insertA, lookupA, h, ih]

theorem lookupA_insertA_ne {α : Type} (l : List (String × α)) (k a : String) (v : α)
    (h : a ≠ k) : lookupA (insertA l k v) a = lookupA l a := by
  have hk : ¬(k = a) := fun hh => h hh.symm
  induction l with
  | nil => simp [insertA, lookupA, hk]
  | cons hd tl ih =>
    obtain ⟨x, y⟩ := hd
    by_cases hx : x = k
    · subst hx
      simp [insertA, lookupA, hk]
    · simp [insertA, lookupA, hx, ih]

theorem lookupA_insertA_none {α : Type} {l : List (String × α)} {k a : String} {v : α}
    (h : lookupA (insertA l k v) a = none) : lookupA l a = none := by
  by_cases hak : a = k
  · subst hak
    rw [lookupA_insertA_self] at h
    exact absurd h (by simp)
  · rwa [lookupA_insertA_ne l k a v hak] at h

theorem lookupA_bump_self (l : List (String × Nat)) (k : String) :
    lookupA (bump l k) k = some (((lookupA l k).getD 0 + 1) % U64) := by
  induction l with
  | nil =>
    simp [bump, lookupA]
    norm_num [U64]
  | cons hd tl ih =>
    obtain ⟨a, n⟩ := hd
    by_cases h : a = k <;> simp [bump, lookupA, h, ih]

theorem lookupA_bump_ne (l : List (String × Nat)) (k a : String) (h : a ≠ k) :
    lookupA (bump l k) a = lookupA l a := by
  have hk : ¬(k = a) := fun hh => h hh.symm
  induction l with
  | nil => simp [bump, lookupA, hk]
  | cons hd tl ih =>
    obtain ⟨x, n⟩ := hd
    by_cases hx : x = k
    · subst hx
      simp [bump, lookupA, hk]
    · simp [bump, lookupA, hx, ih]

theorem lookupA_bump_mem {l : List (String × Nat)} {k a : String}
    (h : lookupA (bump l k) a ≠ none) : a = k ∨ lookupA l a ≠ none := by
  by_cases hak : a = k
  · exact Or.inl hak
  · right
    rwa [lookupA_bump_ne l k a hak] at h

theorem handle_create_invalid (validate : String → Bool) (gen : String)
    (s : UrlShortenerService) (url : String) (slug : Option String)
    (h : validate url = false) :
    handle_create_short_link validate gen s url slug =
      (Except.error ShortenerError.InvalidUrl, s) := by
  simp [handle_create_short_link, h]

theorem handle_create_taken (validate : String → Bool) (gen : String)
    (s : UrlShortenerService) (url : String) (slug : Option String) (u : String)
    (hv : validate url = true)
    (hl : lookupA s.slugs (resolveSlug slug gen) = some u) :
    handle_create_short_link validate gen s url slug =
      (Except.error ShortenerError.SlugAlreadyInUse, s) := by
  simp [handle_create_short_link, hv, hl]

theorem handle_create_free (validate : String → Bool) (gen : String)
    (s : UrlShortenerService) (url : String) (slug : Option String)
    (hv : validate url = true)
    (hl : lookupA s.slugs (resolveSlug slug gen) = none) :
    handle_create_short_link validate gen s url slug =
      (Except.ok { slug := resolveSlug slug gen, url := url },
       { s with slugs := insertA s.slugs (resolveSlug slug gen) url }) := by
  simp [handle_create_short_link, hv, hl]

theorem handle_create_snd_stats (validate : String → Bool) (gen : String)
    (s : UrlShortenerService) (url : String) (slug : Option String) :
    (handle_create_short_link validate gen s url slug).2.stats = s.stats := by
  cases hv : validate url
  · rw [handle_create_invalid validate gen s url slug hv]
  · cases hl : lookupA s.slugs (resolveSlug slug gen) with
    | none => rw [handle_create_free validate gen s url slug hv hl]
    | some u => rw [handle_create_taken validate gen s url slug u hv hl]

theorem handle_create_slugs_none {validate : String → Bool} {gen : String}
    {s : UrlShortenerService} {url : String} {slug : Option String} {a : String}
    (h : lookupA (handle_create_short_link validate gen s url slug).2.slugs a = none) :
    lookupA s.slugs a = none := by
  cases hv : validate url
  · rwa [handle_create_invalid validate gen s url slug hv] at h
  · cases hl : lookupA s.slugs (resolveSlug slug gen) with
    | none =>
      rw [handle_create_free validate gen s url slug hv hl] at h
      exact lookupA_insertA_none h
    | some u => rwa [handle_create_taken validate gen s url slug u hv hl] at h

theorem handle_redirect_ok (s : UrlShortenerService) (slug url : String)
    (h : lookupA s.slugs slug = some url) :
    handle_redirect s slug =
      (Except.ok { slug := slug, url := url }, { s with stats := bump s.stats slug }) := by
  simp [handle_redirect, h]

theorem handle_redirect_err (s : UrlShortenerService) (slug : String)
    (h : lookupA s.slugs slug = none) :
    handle_redirect s slug = (Except.error ShortenerError.SlugNotFound, s) := by
  simp [handle_redirect, h]

theorem handle_redirect_snd_slugs (s : UrlShortenerService) (slug : String) :
    (handle_redirect s slug).2.slugs = s.slugs := by
  cases h : lookupA s.slugs slug with
  | none => rw [handle_redirect_err s slug h]
  | some u => rw [handle_redirect_ok s slug u h]

theorem step_slugs_none {validate : String → Bool} {s : UrlShortenerService} {op : Op}
    {a : String} (h : lookupA (step validate s op).slugs a = none) :
    lookupA s.slugs a = none := by
  cases op with
  | create url slug gen => exact handle_create_slugs_none h
  | redirect slug =>
    rwa [step, handle_redirect_snd_slugs] at h
  | getStats slug => exact h

theorem run_cons (validate : String → Bool) (op : Op) (ops : List Op)
    (s : UrlShortenerService) :
    run validate (op :: ops) s = run validate ops (step validate s op) := by
  simp [run, List.foldl]

theorem createdSlugs_invariant (validate : String → Bool) (ops : List Op) :
    ∀ s : UrlShortenerService,
      (createdSlugs validate ops s).Nodup ∧
      ∀ x ∈ createdSlugs validate ops s, lookupA s.slugs x = none := by
  induction ops with
  | nil => intro s; simp [createdSlugs]
  | cons op rest ih =>
    intro s
    cases op with
    | redirect slug =>
      have h := ih (step validate s (Op.redirect slug))
      refine ⟨h.1, fun x hx => ?_⟩
      have := h.2 x hx
      rwa [step, handle_redirect_snd_slugs] at this
    | getStats slug => exact ih s
    | create url slug gen =>
      cases hv : validate url with
      | false =>
        rw [show createdSlugs validate (Op.create url slug gen :: rest) s =
              createdSlugs validate rest s by
            simp [createdSlugs, handle_create_invalid validate gen s url slug hv]]
        exact ih s
      | true =>
        cases hl : lookupA s.slugs (resolveSlug slug gen) with
        | some u =>
          rw [show createdSlugs validate (Op.create url slug gen :: rest) s =
                createdSlugs validate rest s by
              simp [createdSlugs, handle_create_taken validate gen s url slug u hv hl]]
          exact ih s
        | none =>
          have hfree := handle_create_free validate gen s url slug hv hl
          have hstep :
              createdSlugs validate (Op.create url slug gen :: rest) s =
                resolveSlug slug gen ::
                  createdSlugs validate rest
                    { s with slugs := insertA s.slugs (resolveSlug slug gen) url } := by
            simp [createdSlugs, hfree]
          rw [hstep]
          have h := ih { s with slugs := insertA s.slugs (resolveSlug slug gen) url }
          constructor
          · refine List.nodup_cons.mpr ⟨fun hmem => ?_, h.1⟩
            have := h.2 _ hmem
            rw [show ({ s with slugs := insertA s.slugs (resolveSlug slug gen) url} :
                  UrlShortenerService).slugs =
                insertA s.slugs (resolveSlug slug gen) url from rfl] at this
            rw [lookupA_insertA_self] at this
            exact absurd this (by simp)
          · intro x hx
            rcases List.mem_cons.mp hx with hx1 | hx2
            · rw [hx1]; exact hl
            · exact lookupA_insertA_none (h.2 x hx2)

theorem stats_slugs_invariant (validate : String → Bool) (ops : List Op) :
    ∀ s : UrlShortenerService,
      (∀ k, lookupA s.stats k ≠ none → lookupA s.slugs k ≠ none) →
      ∀ k, lookupA (run validate ops s).stats k ≠ none →
        lookupA (run validate ops s).slugs k ≠ none := by
  induction ops with
  | nil => intro s hs; simpa [run] using hs
  | cons op rest ih =>
    intro s hs
    rw [run_cons]
    refine ih (step validate s op) ?_
    intro k hk
    cases op with
    | getStats slug => exact hs k hk
    | create url slug gen =>
      rw [step, handle_create_snd_stats] at hk
      have h1 := hs k hk
      intro hc
      exact h1 (handle_create_slugs_none hc)
    | redirect slug =>
      cases hl : lookupA s.slugs slug with
      | none =>
        rw [step, handle_redirect_err s slug hl] at hk ⊢
        exact hs k hk
      | some u =>
        rw [step, handle_redirect_ok s slug u hl] at hk ⊢
        rcases lookupA_bump_mem hk with hks | hkn
        · subst hks
          simp [hl]
        · exact hs k hkn

theorem runLog_fst (validate : String → Bool) (ops : List Op) :
    ∀ s : UrlShortenerService, (runLog validate ops s).1 = run validate ops s := by
  induction ops with
  | nil => intro s; simp [runLog, run]
  | cons op rest ih =>
    intro s
    rw [run_cons]
    cases op with
    | getStats slug => exact ih s
    | create url slug gen =>
      cases hv : validate url with
      | false =>
        have h := handle_create_invalid validate gen s url slug hv
        simp [runLog, h, ih, step]
      | true =>
        cases hl : lookupA s.slugs (resolveSlug slug gen) with
        | some u =>
          have h := handle_create_taken validate gen s url slug u hv hl
          simp [runLog, h, ih, step]
        | none =>
          have h := handle_create_free validate gen s url slug hv hl
          simp [runLog, h, ih, step]
    | redirect slug =>
      cases hl : lookupA s.slugs slug with
      | none =>
        have h := handle_redirect_err s slug hl
        simp [runLog, h, ih, step]
      | some u =>
        have h := handle_redirect_ok s slug u hl
        simp [runLog, h, ih, step]

theorem foldl_applyEvent_runLog (validate : String → Bool) (ops : List Op) :
    ∀ s : UrlShortenerService,
      List.foldl applyEvent s (runLog validate ops s).2 = (runLog validate ops s).1 := by
  induction ops with
  | nil => intro s; simp [runLog]
  | cons op rest ih =>
    intro s
    cases op with
    | getStats slug => exact ih s
    | create url slug gen =>
      cases hv : validate url with
      | false =>
        have h := handle_create_invalid validate gen s url slug hv
        simp [runLog, h, ih]
      | true =>
        cases hl : lookupA s.slugs (resolveSlug slug gen) with
        | some u =>
          have h := handle_create_taken validate gen s url slug u hv hl
          simp [runLog, h, ih]
        | none =>
          have h := handle_create_free validate gen s url slug hv hl
          have happ :
              applyEvent s (Event.linkCreated (resolveSlug slug gen) url) =
                { s with slugs := insertA s.slugs (resolveSlug slug gen) url } := by
            simp [applyEvent, hl]
          simp [runLog, h, List.foldl, happ, ih]
    | redirect slug =>
      cases hl : lookupA s.slugs slug with
      | none =>
        have h := handle_redirect_err s slug hl
        simp [runLog, h, ih]
      | some u =>
        have h := handle_redirect_ok s slug u hl
        have happ :
            applyEvent s (Event.redirectOccurred slug) =
              { s with stats := bump s.stats slug } := by
          simp [applyEvent]
        simp [runLog, h, List.foldl, happ, ih]

theorem redirectN_slugs (s : UrlShortenerService) (slug : String) (n : Nat) :
    (redirectN s slug n).slugs = s.slugs := by
  induction n with
  | zero => rfl
  | succ n ih => rw [redirectN, handle_redirect_snd_slugs, ih]

theorem redirectN_ok (s : UrlShortenerService) (slug url : String)
    (h : lookupA s.slugs slug = some url) (n : Nat) :
    (handle_redirect (redirectN s slug n) slug).1 =
      Except.ok { slug := slug, url := url } := by
  have hl : lookupA (redirectN s slug n).slugs slug = some url := by
    rw [redirectN_slugs]; exact h
  rw [handle_redirect_ok _ slug url hl]

theorem one_mod_U64 : (1 : Nat) % U64 = 1 :=
  Nat.mod_eq_of_lt (by norm_num [U64])

theorem mod_add_one_U64 (m : Nat) : (m % U64 + 1) % U64 = (m + 1) % U64 := by
  conv_lhs => rw [← one_mod_U64]
  rw [← Nat.add_mod]

theorem countOf_redirectN (s : UrlShortenerService) (slug url : String)
    (h : lookupA s.slugs slug = some url) (hc : countOf s slug < U64) (n : Nat) :
    countOf (redirectN s slug n) slug = (countOf s slug + n) % U64 := by
  induction n with
  | zero =>
    rw [redirectN, Nat.add_zero, Nat.mod_eq_of_lt hc]
  | succ n ih =>
    have hl : lookupA (redirectN s slug n).slugs slug = some url := by
      rw [redirectN_slugs]; exact h
    rw [redirectN, handle_redirect_ok (redirectN s slug n) slug url hl]
    simp only [countOf, lookupA_bump_self, Option.getD_some]
    rw [show (lookupA (redirectN s slug n).stats slug).getD 0 =
          (countOf s slug + n) % U64 from ih]
    rw [mod_add_one_U64, Nat.add_assoc]
    rfl

theorem redirectAllOk_of_mem (s : UrlShortenerService) (slug url : String)
    (h : lookupA s.slugs slug = some url) (n : Nat) :
    redirectAllOk s slug n = true := by
  induction n with
  | zero => rfl
  | succ n ih =>
    rw [redirectAllOk, ih, redirectN_ok s slug url h n]
    rfl

theorem countOf_step_mono (validate : String → Bool) (s : UrlShortenerService)
    (op : Op) (k : String) (h : countOf s k + 1 < U64) :
    countOf s k ≤ countOf (step validate s op) k := by
  cases op with
  | getStats slug => exact le_refl _
  | create url slug gen =>
    have hst : (step validate s (Op.create url slug gen)).stats = s.stats :=
      handle_create_snd_stats validate gen s url slug
    simp [countOf, hst]
  | redirect slug =>
    cases hl : lookupA s.slugs slug with
    | none => rw [step, handle_redirect_err s slug hl]
    | some u =>
      rw [step, handle_redirect_ok s slug u hl]
      by_cases hk : k = slug
      · subst hk
        simp only [countOf, lookupA_bump_self, Option.getD_some]
        simp only [countOf] at h
        rw [Nat.mod_eq_of_lt h]
        omega
      · simp [countOf, lookupA_bump_ne _ _ _ hk]

/-- C1 (amended): over any call sequence on one fresh service instance, the
slugs returned by successful `handle_create_short_link` calls are pairwise
distinct, so each slug is registered by at most one successful creation; and
a call whose resolved slug is already a key of the slug registry and whose
URL passes validation fails with `SlugAlreadyInUse` and registers nothing
(when the URL fails validation such a call fails with `InvalidUrl` instead,
and still registers nothing). -/
theorem create_slug_uniqueness (validate : String → Bool) (ops : List Op) :
    (createdSlugs validate ops UrlShortenerService.new).Nodup ∧
    ∀ (s : UrlShortenerService) (url gen u : String) (slug : Option String),
      validate url = true →
      lookupA s.slugs (resolveSlug slug gen) = some u →
      handle_create_short_link validate gen s url slug =
        (Except.error ShortenerError.SlugAlreadyInUse, s) :=
  ⟨(createdSlugs_invariant validate ops UrlShortenerService.new).1,
   fun s url gen u slug hv hl => handle_create_taken validate gen s url slug u hv hl⟩

/-- C1 witness: a concrete two-create sequence reusing slug `"t"` yields
distinct successful slugs, and a create call on `demoState` (where `"t"` is
taken) with a valid URL fails with `SlugAlreadyInUse` leaving the state
untouched. -/
theorem create_slug_uniqueness_witness :
    (createdSlugs exampleValidator
        [Op.create "https://example.com/" (some "t") "g",
         Op.create "https://example.com/" (some "t") "g2"]
        UrlShortenerService.new).Nodup ∧
    handle_create_short_link exampleValidator "g" demoState
        "https://example.com/" (some "t") =
      (Except.error ShortenerError.SlugAlreadyInUse, demoState) :=
  ⟨(create_slug_uniqueness exampleValidator
      [Op.create "https://example.com/" (some "t") "g",
       Op.create "https://example.com/" (some "t") "g2"]).1,
   (create_slug_uniqueness exampleValidator []).2 demoState "https://example.com/"
     "g" "https://example.com/" (some "t") (by decide) (by decide)⟩

/-- C1 counterexample to the literal claim: with slug `"t"` already
registered in `demoState`, a create call that resolves to `"t"` but carries
the unparseable URL `"not a url"` fails with `InvalidUrl`, not
`SlugAlreadyInUse` (the source checks `Url::parse` before the registry). -/
theorem create_taken_slug_invalid_url_cex :
    lookupA demoState.slugs "t" = some "https://example.com/" ∧
    (handle_create_short_link exampleValidator "g" demoState
        "not a url" (some "t")).1 =
      Except.error ShortenerError.InvalidUrl ∧
    (handle_create_short_link exampleValidator "g" demoState
        "not a url" (some "t")).1 ≠
      Except.error ShortenerError.SlugAlreadyInUse :=
  ⟨by decide, by decide, by decide⟩

/-- C2: for every call sequence, replaying the recorded event log from the
empty state (`rebuild`) reproduces exactly the projections the service built
incrementally, and the state reached while recording the log is the state of
the plain run. -/
theorem replay_equivalence (validate : String → Bool) (ops : List Op) :
    rebuild (runLog validate ops UrlShortenerService.new).2 =
      run validate ops UrlShortenerService.new ∧
    (runLog validate ops UrlShortenerService.new).1 =
      run validate ops UrlShortenerService.new := by
  have h1 := foldl_applyEvent_runLog validate ops UrlShortenerService.new
  have h2 := runLog_fst validate ops UrlShortenerService.new
  exact ⟨by rw [rebuild, h1, h2], h2⟩

/-- C3: the source body of `get_stats` is `todo!()`, which panics
unconditionally (embedded as `none`); on a fresh instance `get_stats "nope"`
panics instead of returning `SlugNotFound` as the claim requires. -/
theorem get_stats_panics :
    get_stats UrlShortenerService.new "nope" = none := rfl

/-- C4 (amended): with slug registered, every repeated `handle_redirect`
call succeeds and returns the registered `ShortLink`; a successful call sets
the counter to its old value plus one reduced modulo `2 ^ 64` (the counter is
a `u64`), in particular inserting an absent counter at 1; starting from a
zero counter, after `n < 2 ^ 64` successful redirects the counter equals `n`;
and no operation decreases a counter that is below the `u64` wrap-around
point. -/
theorem redirect_counter (s : UrlShortenerService) (slug url : String)
    (h : lookupA s.slugs slug = some url) :
    (∀ m : Nat, (handle_redirect (redirectN s slug m) slug).1 =
        Except.ok { slug := slug, url := url }) ∧
    countOf (handle_redirect s slug).2 slug = (countOf s slug + 1) % U64 ∧
    (countOf s slug = 0 → ∀ n : Nat, n < U64 →
      countOf (redirectN s slug n) slug = n) ∧
    ∀ (validate : String → Bool) (s2 : UrlShortenerService) (op : Op) (k : String),
      countOf s2 k + 1 < U64 → countOf s2 k ≤ countOf (step validate s2 op) k := by
  refine ⟨redirectN_ok s slug url h, ?_, ?_, countOf_step_mono⟩
  · rw [handle_redirect_ok s slug url h]
    simp [countOf, lookupA_bump_self]
  · intro h0 n hn
    have hc : countOf s slug < U64 := by rw [h0]; norm_num [U64]
    rw [countOf_redirectN s slug url h hc n, h0, Nat.zero_add, Nat.mod_eq_of_lt hn]

/-- C4 witness: on the concrete state with `"a"` registered and zero clicks,
the third redirect still succeeds and returns the link, and ten redirects
leave the counter at exactly 10. -/
theorem redirect_counter_witness :
    lookupA demoRedirectState.slugs "a" = some "https://x.test/" ∧
    (handle_redirect (redirectN demoRedirectState "a" 2) "a").1 =
      Except.ok { slug := "a", url := "https://x.test/" } ∧
    countOf (redirectN demoRedirectState "a" 10) "a" = 10 :=
  ⟨by decide,
   (redirect_counter demoRedirectState "a" "https://x.test/" (by decide)).1 2,
   (redirect_counter demoRedirectState "a" "https://x.test/" (by decide)).2.2.1
     (by decide) 10 (by norm_num [U64])⟩

/-- C4 counterexample to the literal claim: from the concrete state with
`"a"` registered and a zero counter, all `2 ^ 64` redirect calls succeed,
yet the counter afterwards is 0, not `2 ^ 64` — the `u64` counter wraps, so
"after N successful redirects the counter equals N" fails at `N = 2 ^ 64`
and the wrapping step decreases the counter. -/
theorem redirect_counter_overflow_cex :
    redirectAllOk demoRedirectState "a" U64 = true ∧
    countOf (redirectN demoRedirectState "a" U64) "a" = 0 ∧
    countOf (redirectN demoRedirectState "a" U64) "a" ≠ U64 := by
  have hreg : lookupA demoRedirectState.slugs "a" = some "https://x.test/" := by decide
  have h0 : countOf demoRedirectState "a" = 0 := by decide
  have hc : countOf demoRedirectState "a" < U64 := by rw [h0]; norm_num [U64]
  have hcount : countOf (redirectN demoRedirectState "a" U64) "a" = 0 := by
    rw [countOf_redirectN demoRedirectState "a" "https://x.test/" hreg hc U64, h0,
      Nat.zero_add, Nat.mod_self]
  refine ⟨redirectAllOk_of_mem demoRedirectState "a" "https://x.test/" hreg U64,
    hcount, ?_⟩
  rw [hcount]
  norm_num [U64]

/-- C5 (amended): creating `url` under an unregistered slug `sl` (with `url`
passing validation) returns `Ok (ShortLink sl url)`, and a second create call
with the same slug and any URL that passes validation fails with
`SlugAlreadyInUse` and changes nothing (a second call whose URL fails
validation fails with `InvalidUrl` instead). -/
theorem create_round_trip (validate : String → Bool)
    (s : UrlShortenerService) (url url2 gen gen2 sl : String)
    (h1 : validate url = true) (h2 : validate url2 = true)
    (h3 : lookupA s.slugs sl = none) :
    (handle_create_short_link validate gen s url (some sl)).1 =
      Except.ok { slug := sl, url := url } ∧
    handle_create_short_link validate gen2
        (handle_create_short_link validate gen s url (some sl)).2 url2 (some sl) =
      (Except.error ShortenerError.SlugAlreadyInUse,
       (handle_create_short_link validate gen s url (some sl)).2) := by
  have hfree := handle_create_free validate gen s url (some sl) h1 h3
  constructor
  · rw [hfree]
    rfl
  · refine handle_create_taken validate gen2 _ url2 (some sl) url h2 ?_
    rw [hfree]
    exact lookupA_insertA_self s.slugs sl url

/-- C5 witness: the claim's concrete round trip — creating
`"https://example.com/"` under `"my-slug"` on a fresh instance returns
exactly that `ShortLink`, and a second create with the same slug and another
valid URL is rejected with `SlugAlreadyInUse`. -/
theorem create_round_trip_witness :
    (handle_create_short_link exampleValidator "g" UrlShortenerService.new
        "https://example.com/" (some "my-slug")).1 =
      Except.ok { slug := "my-slug", url := "https://example.com/" } ∧
    handle_create_short_link exampleValidator "g2" c5FirstState
        "https://www.example.com/" (some "my-slug") =
      (Except.error ShortenerError.SlugAlreadyInUse, c5FirstState) :=
  ⟨(create_round_trip exampleValidator UrlShortenerService.new
      "https://example.com/" "https://www.example.com/" "g" "g2" "my-slug"
      (by decide) (by decide) (by decide)).1,
   (create_round_trip exampleValidator UrlShortenerService.new
      "https://example.com/" "https://www.example.com/" "g" "g2" "my-slug"
      (by decide) (by decide) (by decide)).2⟩

/-- C5 counterexample to the literal claim: after successfully creating
`"my-slug"`, a second call with the same slug but the invalid URL
`"not a url"` returns `InvalidUrl`, not `SlugAlreadyInUse` — the URL check
runs before the registry check. -/
theorem create_second_call_invalid_url_cex :
    (handle_create_short_link exampleValidator "g" UrlShortenerService.new
        "https://example.com/" (some "my-slug")).1 =
      Except.ok { slug := "my-slug", url := "https://example.com/" } ∧
    (handle_create_short_link exampleValidator "g2" c5FirstState
        "not a url" (some "my-slug")).1 =
      Except.error ShortenerError.InvalidUrl ∧
    (handle_create_short_link exampleValidator "g2" c5FirstState
        "not a url" (some "my-slug")).1 ≠
      Except.error ShortenerError.SlugAlreadyInUse :=
  ⟨by decide, by decide, by decide⟩

/-- C6: whenever the URL fails syntactic validation, create fails with
`InvalidUrl` and returns the state unchanged — slug registry and click
counters included — for every prior state and whether the slug was supplied
(`some`) or generated (`none`). -/
theorem invalid_url_rejected (validate : String → Bool) (gen : String)
    (s : UrlShortenerService) (url : String) (slug : Option String)
    (h : validate url = false) :
    handle_create_short_link validate gen s url slug =
      (Except.error ShortenerError.InvalidUrl, s) :=
  handle_create_invalid validate gen s url slug h

/-- C6 witness: creating `"not a url"` without a slug on a fresh instance
fails with `InvalidUrl` and leaves the fresh state intact. -/
theorem invalid_url_rejected_witness :
    exampleValidator "not a url" = false ∧
    handle_create_short_link exampleValidator "gen7abc" UrlShortenerService.new
        "not a url" none =
      (Except.error ShortenerError.InvalidUrl, UrlShortenerService.new) :=
  ⟨by decide,
   invalid_url_rejected exampleValidator "gen7abc" UrlShortenerService.new
     "not a url" none (by decide)⟩

/-- C7: redirecting a slug absent from the registry fails with `SlugNotFound`
and returns the state unchanged: no counter is created or incremented and the
registry is untouched. -/
theorem redirect_not_found (s : UrlShortenerService) (slug : String)
    (h : lookupA s.slugs slug = none) :
    handle_redirect s slug = (Except.error ShortenerError.SlugNotFound, s) :=
  handle_redirect_err s slug h

/-- C7 witness: `redirect "nope"` on a fresh instance fails with
`SlugNotFound` and leaves the fresh state intact. -/
theorem redirect_not_found_witness :
    lookupA UrlShortenerService.new.slugs "nope" = none ∧
    handle_redirect UrlShortenerService.new "nope" =
      (Except.error ShortenerError.SlugNotFound, UrlShortenerService.new) :=
  ⟨by decide, redirect_not_found UrlShortenerService.new "nope" (by decide)⟩

/-- C8 (amended): `handle_create_short_link` performs no non-emptiness check
on slugs — with a URL that passes validation and the empty-string slug not
yet registered, a call supplying the empty slug succeeds and registers it. -/
theorem empty_slug_registered (validate : String → Bool) (gen : String)
    (s : UrlShortenerService) (url : String)
    (h1 : validate url = true) (h2 : lookupA s.slugs "" = none) :
    (handle_create_short_link validate gen s url (some "")).1 =
      Except.ok { slug := "", url := url } ∧
    lookupA (handle_create_short_link validate gen s url (some "")).2.slugs "" =
      some url := by
  have hfree := handle_create_free validate gen s url (some "") h1 h2
  rw [hfree]
  exact ⟨rfl, lookupA_insertA_self s.slugs "" url⟩

/-- C8 witness: on a fresh instance the empty slug is accepted for a valid
URL and ends up registered. -/
theorem empty_slug_registered_witness :
    (handle_create_short_link exampleValidator "g" UrlShortenerService.new
        "https://example.com/" (some "")).1 =
      Except.ok { slug := "", url := "https://example.com/" } ∧
    lookupA (handle_create_short_link exampleValidator "g" UrlShortenerService.new
        "https://example.com/" (some "")).2.slugs "" =
      some "https://example.com/" :=
  empty_slug_registered exampleValidator "g" UrlShortenerService.new
    "https://example.com/" (by decide) (by decide)

/-- C8 counterexample to the literal claim: a call supplying the
empty-string slug with a valid URL succeeds on a fresh instance, so not
every slug accepted by a successful creation is non-empty. -/
theorem empty_slug_accepted_cex :
    isOk (handle_create_short_link exampleValidator "g" UrlShortenerService.new
        "https://example.com/" (some "")).1 = true ∧
    (handle_create_short_link exampleValidator "g" UrlShortenerService.new
        "https://example.com/" (some "")).1 =
      Except.ok { slug := "", url := "https://example.com/" } :=
  ⟨by decide, by decide⟩

/-- C9: in every state reachable from a fresh instance by any call sequence,
every key of the click-counter map is a key of the slug registry. -/
theorem stats_keys_created (validate : String → Bool) (ops : List Op) (k : String)
    (h : lookupA (run validate ops UrlShortenerService.new).stats k ≠ none) :
    lookupA (run validate ops UrlShortenerService.new).slugs k ≠ none :=
  stats_slugs_invariant validate ops UrlShortenerService.new
    (fun _ hk2 => absurd rfl hk2) k h

/-- C9 witness: after creating `"abc"` and redirecting it once, `"abc"` is a
key of the counters and, by the theorem, of the registry. -/
theorem stats_keys_created_witness :
    lookupA (run exampleValidator demoOps UrlShortenerService.new).stats "abc" ≠
      none ∧
    lookupA (run exampleValidator demoOps UrlShortenerService.new).slugs "abc" ≠
      none :=
  ⟨by decide, stats_keys_created exampleValidator demoOps "abc" (by decide)⟩

/-- C10: `handle_redirect` never modifies the slug registry — for every slug
and every prior state, successful or not, the slug-to-URL map of the
post-state is the one of the pre-state. -/
theorem redirect_preserves_registry (s : UrlShortenerService) (slug : String) :
    (handle_redirect s slug).2.slugs = s.slugs :=
  handle_redirect_snd_slugs s slug

end Urlshort
